import Mathlib

/-!
Shallow embedding of the BoxMeOut Stella oracle contract
(src/contracts/contracts/boxmeout/src/oracle.rs).

The Soroban persistent key-value store is modelled as an explicit record of
typed maps, one field per storage namespace used by the contract.  Storage
slots that the code always reads with `unwrap_or(default)` are modelled as
total functions with that default; slots read with `unwrap()` / `expect(..)`
are `Option`s, and a `none` read is the corresponding panic.  A Soroban panic
aborts the whole transaction and reverts every write, so each operation
returns `Except OErr OracleState`: on `error` the pre-state is kept
(`applyOp`).  `require_auth` is host-provided proof of identity control and is
outside the contract's own logic, so operations are modelled at the point
where all `require_auth` calls have succeeded.  `u32`/`u64` values are `Nat`;
the only subtraction (`current_time - last_override_time` in
`emergency_override`) is performed by the code under the platform guarantee
that ledger time is non-decreasing, where `Nat` and `u64` subtraction agree;
theorems that touch it carry the corresponding `lastOverrideTime ≤ now`
hypothesis.  Addresses, symbols and `BytesN<32>` ids are opaque values with
decidable equality, modelled as `Nat`.
-/

abbrev Addr := Nat
abbrev MarketId := Nat
abbrev Hash := Nat

/-- `Attestation` record from oracle.rs. -/
structure Attestation where
  attestor : Addr
  outcome : Nat
  timestamp : Nat
deriving Repr, DecidableEq

/-- `EmergencyOverrideRecord` from oracle.rs. -/
structure EmergencyOverrideRecord where
  market_id : MarketId
  forced_outcome : Nat
  justification_hash : Hash
  approvers : List Addr
  timestamp : Nat
deriving Repr, DecidableEq

/-- The contract's persistent storage, one field per storage namespace. -/
structure OracleState where
  /-- "admin" key; read with `unwrap()` by `register_oracle` / `register_market`. -/
  admin : Option Addr
  /-- "required_consensus" key; read with `unwrap_or(0)` by `check_consensus`. -/
  requiredConsensus : Option Nat
  /-- "oracle_count" key; read with `unwrap_or(0)`. -/
  oracleCount : Nat
  /-- ("oracle", addr) keys: presence flag, read with `unwrap_or(false)` / `has`. -/
  oracleReg : Addr → Bool
  /-- ("oracle_name", addr) keys. -/
  oracleName : Addr → Option Nat
  /-- ("oracle_accuracy", addr) keys. -/
  oracleAccuracy : Addr → Option Nat
  /-- ("oracle_timestamp", addr) keys. -/
  oracleRegTime : Addr → Option Nat
  /-- ("mkt_res_time", market) keys; `has`/`get`/`expect`. -/
  mktResTime : MarketId → Option Nat
  /-- ("attest_yes", market) keys; always read with `unwrap_or(0)`. -/
  attestYes : MarketId → Nat
  /-- ("attest_no", market) keys; always read with `unwrap_or(0)`. -/
  attestNo : MarketId → Nat
  /-- ("vote", market, oracle) keys; `has` for the duplicate check, `unwrap_or(0)` in `check_consensus`. -/
  vote : MarketId → Addr → Option Nat
  /-- ("attestation", market, oracle) keys. -/
  attn : MarketId → Addr → Option Attestation
  /-- ("voters", market) keys; read with `unwrap_or(Vec::new)`. -/
  voters : MarketId → List Addr
  /-- "admin_signers" key; read with `expect("Oracle not initialized")`. -/
  adminSigners : Option (List Addr)
  /-- "required_sigs" key; read with `unwrap_or(2)`. -/
  requiredSigs : Option Nat
  /-- "last_override" key; read with `unwrap_or(0)`. -/
  lastOverrideTime : Nat
  /-- "override_cooldown" key; read with `unwrap_or(86400)`. -/
  overrideCooldown : Option Nat
  /-- ("consensus_result", market) keys; read with `expect("Consensus result not found")`. -/
  consensusResult : MarketId → Option Nat
  /-- ("manual_override", market) keys; read with `unwrap_or(false)`. -/
  manualOverride : MarketId → Bool
  /-- ("override_record", market) keys. -/
  overrideRecord : MarketId → Option EmergencyOverrideRecord

/-- Panic reasons of the contract, one per distinguishable abort message. -/
inductive OErr where
  | notInitialized
  | registryFull
  | alreadyRegistered
  | marketNotRegistered
  | tooEarly
  | invalidOutcome
  | duplicateVote
  | notRegistered
  | notAdmin
  | alreadyAdmin
  | invalidValue
  | tooShort
  | insufficientApprovers
  | invalidApprover
  | duplicateApprover
  | cooldownActive
  | consensusResultNotFound
  | unimplemented
deriving Repr, DecidableEq

/-- `initialize(env, admin, required_consensus)` from oracle.rs. -/
def initOracle (admin : Addr) (required_consensus : Nat) (s : OracleState) : OracleState :=
  { s with
    admin := some admin
    requiredConsensus := some required_consensus
    oracleCount := 0
    adminSigners := some [admin]
    requiredSigs := some 2
    overrideCooldown := some 86400
    lastOverrideTime := 0 }

/-- `register_oracle(env, oracle, oracle_name)` from oracle.rs; `now` is the ledger timestamp. -/
def register_oracle (oracle : Addr) (oracle_name : Nat) (now : Nat) (s : OracleState) :
    Except OErr OracleState :=
  match s.admin with
  | none => .error .notInitialized
  | some _ =>
    if 10 ≤ s.oracleCount then .error .registryFull
    else if s.oracleReg oracle then .error .alreadyRegistered
    else .ok { s with
      oracleReg := fun a => if a = oracle then true else s.oracleReg a
      oracleName := fun a => if a = oracle then some oracle_name else s.oracleName a
      oracleAccuracy := fun a => if a = oracle then some 100 else s.oracleAccuracy a
      oracleRegTime := fun a => if a = oracle then some now else s.oracleRegTime a
      oracleCount := s.oracleCount + 1 }

/-- `register_market(env, market_id, resolution_time)` from oracle.rs. -/
def register_market (market_id : MarketId) (resolution_time : Nat) (s : OracleState) :
    Except OErr OracleState :=
  match s.admin with
  | none => .error .notInitialized
  | some _ => .ok { s with
      mktResTime := fun m => if m = market_id then some resolution_time else s.mktResTime m
      attestYes := fun m => if m = market_id then 0 else s.attestYes m
      attestNo := fun m => if m = market_id then 0 else s.attestNo m }

/-- `get_market_resolution_time` from oracle.rs. -/
def get_market_resolution_time (market_id : MarketId) (s : OracleState) : Option Nat :=
  s.mktResTime market_id

/-- `get_attestation_counts` from oracle.rs. -/
def get_attestation_counts (market_id : MarketId) (s : OracleState) : Nat × Nat :=
  (s.attestYes market_id, s.attestNo market_id)

/-- `get_attestation` from oracle.rs. -/
def get_attestation (market_id : MarketId) (oracle : Addr) (s : OracleState) :
    Option Attestation :=
  s.attn market_id oracle

/-- `submit_attestation(env, oracle, market_id, attestation_result, _data_hash)` from oracle.rs. -/
def submit_attestation (oracle : Addr) (market_id : MarketId) (attestation_result : Nat)
    (now : Nat) (s : OracleState) : Except OErr OracleState :=
  if s.oracleReg oracle = false then .error .notRegistered
  else match s.mktResTime market_id with
  | none => .error .marketNotRegistered
  | some resolution_time =>
    if now < resolution_time then .error .tooEarly
    else if 1 < attestation_result then .error .invalidOutcome
    else if (s.vote market_id oracle).isSome then .error .duplicateVote
    else .ok { s with
      vote := fun m a =>
        if m = market_id ∧ a = oracle then some attestation_result else s.vote m a
      attn := fun m a =>
        if m = market_id ∧ a = oracle then some ⟨oracle, attestation_result, now⟩ else s.attn m a
      voters := fun m => if m = market_id then s.voters m ++ [oracle] else s.voters m
      attestYes := fun m =>
        if m = market_id ∧ attestation_result = 1 then s.attestYes m + 1 else s.attestYes m
      attestNo := fun m =>
        if m = market_id ∧ attestation_result ≠ 1 then s.attestNo m + 1 else s.attestNo m }

/-- `check_consensus(env, market_id)` from oracle.rs.  The vote-counting loop over the
voter list is rendered as two `countP` scans: the loop increments `yes_votes` exactly on
the voters whose stored vote reads as 1 (`unwrap_or(0)`) and `no_votes` on all others. -/
def check_consensus (market_id : MarketId) (s : OracleState) : Bool × Nat :=
  let vs := s.voters market_id
  let threshold := s.requiredConsensus.getD 0
  if vs.length < threshold then (false, 0)
  else
    let yes_votes := vs.countP (fun o => (s.vote market_id o).getD 0 == 1)
    let no_votes := vs.countP (fun o => (s.vote market_id o).getD 0 != 1)
    if threshold ≤ yes_votes ∧ no_votes < yes_votes then (true, 1)
    else if threshold ≤ no_votes ∧ yes_votes < no_votes then (true, 0)
    else if threshold ≤ yes_votes ∧ threshold ≤ no_votes ∧ yes_votes = no_votes then (false, 0)
    else (false, 0)

/-- `get_consensus_result(env, market_id)` from oracle.rs; a `none` slot is the
`expect("Consensus result not found")` panic. -/
def get_consensus_result (market_id : MarketId) (s : OracleState) : Except OErr Nat :=
  match s.consensusResult market_id with
  | none => .error .consensusResultNotFound
  | some v => .ok v

/-- `add_admin_signer(env, caller, new_admin)` from oracle.rs. -/
def add_admin_signer (caller new_admin : Addr) (s : OracleState) : Except OErr OracleState :=
  match s.adminSigners with
  | none => .error .notInitialized
  | some signers =>
    if signers.contains caller = false then .error .notAdmin
    else if signers.contains new_admin then .error .alreadyAdmin
    else .ok { s with adminSigners := some (signers ++ [new_admin]) }

/-- `set_required_signatures(env, caller, required_sigs)` from oracle.rs. -/
def set_required_signatures (caller : Addr) (required_sigs : Nat) (s : OracleState) :
    Except OErr OracleState :=
  match s.adminSigners with
  | none => .error .notInitialized
  | some signers =>
    if signers.contains caller = false then .error .notAdmin
    else if required_sigs = 0 ∨ signers.length < required_sigs then .error .invalidValue
    else .ok { s with requiredSigs := some required_sigs }

/-- `set_override_cooldown(env, caller, cooldown_seconds)` from oracle.rs. -/
def set_override_cooldown (caller : Addr) (cooldown_seconds : Nat) (s : OracleState) :
    Except OErr OracleState :=
  match s.adminSigners with
  | none => .error .notInitialized
  | some signers =>
    if signers.contains caller = false then .error .notAdmin
    else if cooldown_seconds < 3600 then .error .tooShort
    else .ok { s with overrideCooldown := some cooldown_seconds }

/-- The approver-validation loop of `emergency_override` (step 4 in oracle.rs):
each approver in turn must appear in `admin_signers` (else the
"Invalid approver: not an admin" panic); `valid_approver_count` is incremented
once per approver that passes.  Returns the final count on success. -/
def checkApprovers (admin_signers : List Addr) : List Addr → Except OErr Nat
  | [] => .ok 0
  | a :: rest =>
    if admin_signers.contains a then
      match checkApprovers admin_signers rest with
      | .ok n => .ok (n + 1)
      | .error e => .error e
    else .error .invalidApprover

/-- `emergency_override(env, approvers, market_id, forced_outcome, justification_hash)`
from oracle.rs; `now` is the ledger timestamp. -/
def emergency_override (approvers : List Addr) (market_id : MarketId) (forced_outcome : Nat)
    (justification_hash : Hash) (now : Nat) (s : OracleState) : Except OErr OracleState :=
  if 1 < forced_outcome then .error .invalidOutcome
  else match s.adminSigners with
  | none => .error .notInitialized
  | some admin_signers =>
    if approvers.length < s.requiredSigs.getD 2 then .error .insufficientApprovers
    else match checkApprovers admin_signers approvers with
    | .error e => .error e
    | .ok valid_approver_count =>
      if valid_approver_count ≠ approvers.length then .error .duplicateApprover
      else if 0 < s.lastOverrideTime ∧
          now - s.lastOverrideTime < s.overrideCooldown.getD 86400 then
        .error .cooldownActive
      else if (s.mktResTime market_id).isNone then .error .marketNotRegistered
      else .ok { s with
        consensusResult := fun m =>
          if m = market_id then some forced_outcome else s.consensusResult m
        manualOverride := fun m => if m = market_id then true else s.manualOverride m
        overrideRecord := fun m =>
          if m = market_id then
            some ⟨market_id, forced_outcome, justification_hash, approvers, now⟩
          else s.overrideRecord m
        lastOverrideTime := now }

/-- `get_override_record` from oracle.rs. -/
def get_override_record (market_id : MarketId) (s : OracleState) :
    Option EmergencyOverrideRecord :=
  s.overrideRecord market_id

/-- `is_manual_override` from oracle.rs. -/
def is_manual_override (market_id : MarketId) (s : OracleState) : Bool :=
  s.manualOverride market_id

/-- `get_admin_signers` from oracle.rs (`unwrap_or(Vec::new)`). -/
def get_admin_signers (s : OracleState) : List Addr :=
  s.adminSigners.getD []

/-- `get_required_signatures` from oracle.rs (`unwrap_or(2)`). -/
def get_required_signatures (s : OracleState) : Nat :=
  s.requiredSigs.getD 2

/-- `get_override_cooldown` from oracle.rs (`unwrap_or(86400)`). -/
def get_override_cooldown (s : OracleState) : Nat :=
  s.overrideCooldown.getD 86400

/-- `get_last_override_time` from oracle.rs (`unwrap_or(0)`). -/
def get_last_override_time (s : OracleState) : Nat :=
  s.lastOverrideTime

/-- One public state-changing entry point of the contract, with its ledger
timestamp where the code reads one.  `opUnimplementedStub` stands for the
`todo!()` entry points (`deregister_oracle`, `finalize_resolution`,
`challenge_attestation`, `resolve_challenge`, `set_consensus_threshold`, ...)
which always panic before touching storage. -/
inductive Op where
  | opInit (admin required_consensus : Nat)
  | opRegisterOracle (oracle oracle_name now : Nat)
  | opRegisterMarket (market_id resolution_time : Nat)
  | opSubmit (oracle market_id result now : Nat)
  | opAddAdminSigner (caller new_admin : Nat)
  | opSetRequiredSignatures (caller n : Nat)
  | opSetOverrideCooldown (caller seconds : Nat)
  | opEmergencyOverride (approvers : List Nat) (market_id outcome jhash now : Nat)
  | opUnimplementedStub
deriving Repr, DecidableEq

/-- Transaction semantics of one entry point. -/
def step : Op → OracleState → Except OErr OracleState
  | .opInit a rc, s => .ok (initOracle a rc s)
  | .opRegisterOracle o n now, s => register_oracle o n now s
  | .opRegisterMarket m rt, s => register_market m rt s
  | .opSubmit o m r now, s => submit_attestation o m r now s
  | .opAddAdminSigner c a, s => add_admin_signer c a s
  | .opSetRequiredSignatures c n, s => set_required_signatures c n s
  | .opSetOverrideCooldown c n, s => set_override_cooldown c n s
  | .opEmergencyOverride ap m o j now, s => emergency_override ap m o j now s
  | .opUnimplementedStub, _ => .error .unimplemented

/-- A panic aborts the Soroban transaction and reverts all writes: on error the
pre-state is kept. -/
def applyOp (op : Op) (s : OracleState) : OracleState :=
  match step op s with
  | .ok s2 => s2
  | .error _ => s

/-- Run a sequence of entry-point invocations. -/
def run : List Op → OracleState → OracleState
  | [], s => s
  | op :: ops, s => run ops (applyOp op s)

/-- The pristine contract instance: empty persistent storage. -/
def initialState : OracleState :=
  { admin := none
    requiredConsensus := none
    oracleCount := 0
    oracleReg := fun _ => false
    oracleName := fun _ => none
    oracleAccuracy := fun _ => none
    oracleRegTime := fun _ => none
    mktResTime := fun _ => none
    attestYes := fun _ => 0
    attestNo := fun _ => 0
    vote := fun _ _ => none
    attn := fun _ _ => none
    voters := fun _ => []
    adminSigners := none
    requiredSigs := none
    lastOverrideTime := 0
    overrideCooldown := none
    consensusResult := fun _ => none
    manualOverride := fun _ => false
    overrideRecord := fun _ => none }

/-! ## Shared helper lemmas -/

/-- A failing entry point leaves the state unchanged (transaction revert). -/
theorem applyOp_error {op : Op} {s : OracleState} {e : OErr}
    (h : step op s = .error e) : applyOp op s = s := by
  simp [applyOp, h]

/-- A successful entry point moves to the returned state. -/
theorem applyOp_ok {op : Op} {s s2 : OracleState}
    (h : step op s = .ok s2) : applyOp op s = s2 := by
  simp [applyOp, h]

/-- Any invariant preserved by every single entry point holds along every run. -/
theorem run_invariant (P : OracleState → Prop)
    (h : ∀ op s, P s → P (applyOp op s)) :
    ∀ ops s, P s → P (run ops s) := by
  intro ops
  induction ops with
  | nil => intro s hs; exact hs
  | cons op ops ih => intro s hs; exact ih (applyOp op s) (h op s hs)

/-- The approver loop, when it completes without panicking, has counted every
approver: its result is always the length of the approver list. -/
theorem checkApprovers_ok_length {sg l : List Addr} {n : Nat}
    (h : checkApprovers sg l = .ok n) : n = l.length := by
  induction l generalizing n with
  | nil => simp only [checkApprovers, Except.ok.injEq] at h; simp [← h]
  | cons a rest ih =>
    simp only [checkApprovers] at h
    by_cases hc : sg.contains a
    · rw [if_pos hc] at h
      cases hrec : checkApprovers sg rest with
      | ok m => rw [hrec] at h; simp at h; have := ih hrec; simp [← h, this]
      | error e => rw [hrec] at h; simp at h
    · rw [if_neg hc] at h; simp at h

/-! ## Claim theorems -/

/-- C8: after `initialize(admin, required_consensus)`, the admin-signer set is
exactly the singleton of the initial administrator, the required-signature
count is 2, the override cooldown is 86400 seconds and the last override time
is 0. -/
theorem C8_initialize_defaults (admin rc : Nat) (s : OracleState) :
    (initOracle admin rc s).adminSigners = some [admin] ∧
    get_admin_signers (initOracle admin rc s) = [admin] ∧
    get_required_signatures (initOracle admin rc s) = 2 ∧
    get_override_cooldown (initOracle admin rc s) = 86400 ∧
    get_last_override_time (initOracle admin rc s) = 0 :=
  ⟨rfl, rfl, rfl, rfl, rfl⟩

/-- Yes count re-derived by scanning the market's voter list and each voter's
stored vote, exactly as the counting loop of `check_consensus` does. -/
def yesVotes (mid : MarketId) (s : OracleState) : Nat :=
  (s.voters mid).countP (fun o => (s.vote mid o).getD 0 == 1)

/-- No count re-derived by scanning the market's voter list and each voter's
stored vote, exactly as the counting loop of `check_consensus` does. -/
def noVotes (mid : MarketId) (s : OracleState) : Nat :=
  (s.voters mid).countP (fun o => (s.vote mid o).getD 0 != 1)

/-- C2: `check_consensus` returns `(false, 0)` when the per-market voter count
is below the required threshold; otherwise, with yes/no counts re-derived from
the voter list and the stored votes, it returns `(true, 1)` when yes ≥
threshold and yes > no, `(true, 0)` when no ≥ threshold and no > yes, and
`(false, 0)` in every other case — in particular on a tie where both sides
meet the threshold. -/
theorem C2_check_consensus_spec (s : OracleState) (mid : MarketId) :
    (check_consensus mid s =
      if (s.voters mid).length < s.requiredConsensus.getD 0 then (false, 0)
      else if s.requiredConsensus.getD 0 ≤ yesVotes mid s ∧ noVotes mid s < yesVotes mid s then
        (true, 1)
      else if s.requiredConsensus.getD 0 ≤ noVotes mid s ∧ yesVotes mid s < noVotes mid s then
        (true, 0)
      else (false, 0)) ∧
    (s.requiredConsensus.getD 0 ≤ (s.voters mid).length →
      yesVotes mid s = noVotes mid s →
      s.requiredConsensus.getD 0 ≤ yesVotes mid s →
      s.requiredConsensus.getD 0 ≤ noVotes mid s →
      check_consensus mid s = (false, 0)) := by
  constructor
  · simp only [check_consensus, yesVotes, noVotes]
    split_ifs <;> rfl
  · intro h1 h2 h3 h4
    simp only [yesVotes, noVotes] at h2 h3 h4
    simp only [check_consensus]
    split_ifs <;> first | rfl | omega

/-- Concrete state for the C2 tie scenario: threshold 2, four oracles, two
YES and two NO votes on market 9 (spec §8, example scenario 1). -/
def C2state : OracleState :=
  run [.opInit 1 2, .opRegisterOracle 2 20 0, .opRegisterOracle 3 30 0,
       .opRegisterOracle 4 40 0, .opRegisterOracle 5 50 0,
       .opRegisterMarket 9 1000,
       .opSubmit 2 9 1 1001, .opSubmit 3 9 1 1001,
       .opSubmit 4 9 0 1001, .opSubmit 5 9 0 1001] initialState

/-- Witness for C2 at a concrete tie: two YES and two NO votes, threshold 2,
consensus reported not reached. -/
theorem C2_witness : check_consensus 9 C2state = (false, 0) :=
  (C2_check_consensus_spec C2state 9).2 (by decide) (by decide) (by decide) (by decide)
/-- Successful `register_oracle` characterized: all guards passed and the
post-state stores the oracle with accuracy 100 and an incremented counter. -/
theorem register_oracle_ok_elim {o n now : Nat} {s s2 : OracleState}
    (h : register_oracle o n now s = .ok s2) :
    s.oracleCount < 10 ∧ s.oracleReg o = false ∧
    s2 = { s with
      oracleReg := fun a => if a = o then true else s.oracleReg a
      oracleName := fun a => if a = o then some n else s.oracleName a
      oracleAccuracy := fun a => if a = o then some 100 else s.oracleAccuracy a
      oracleRegTime := fun a => if a = o then some now else s.oracleRegTime a
      oracleCount := s.oracleCount + 1 } := by
  unfold register_oracle at h
  split at h
  · exact Except.noConfusion h
  · split at h
    · exact Except.noConfusion h
    · rename_i h1
      split at h
      · exact Except.noConfusion h
      · rename_i h2
        injection h with h
        subst h
        exact ⟨by omega, by simpa using h2, rfl⟩

/-- Successful `register_market` characterized: the system is initialized and
the post-state rewrites the resolution time and zeroes both tally counters. -/
theorem register_market_ok_elim {m rt : Nat} {s s2 : OracleState}
    (h : register_market m rt s = .ok s2) :
    s2 = { s with
      mktResTime := fun m2 => if m2 = m then some rt else s.mktResTime m2
      attestYes := fun m2 => if m2 = m then 0 else s.attestYes m2
      attestNo := fun m2 => if m2 = m then 0 else s.attestNo m2 } := by
  unfold register_market at h
  split at h
  · exact Except.noConfusion h
  · injection h with h
    subst h
    rfl

/-- Successful `submit_attestation` characterized: all five guards passed and
the post-state stores the vote, the attestation, the voter-list append and the
tally bump. -/
theorem submit_ok_elim {o m r now : Nat} {s s2 : OracleState}
    (h : submit_attestation o m r now s = .ok s2) :
    s.oracleReg o = true ∧ r ≤ 1 ∧ s.vote m o = none ∧
    ∃ rt, s.mktResTime m = some rt ∧ rt ≤ now ∧
      s2 = { s with
        vote := fun m2 a => if m2 = m ∧ a = o then some r else s.vote m2 a
        attn := fun m2 a => if m2 = m ∧ a = o then some ⟨o, r, now⟩ else s.attn m2 a
        voters := fun m2 => if m2 = m then s.voters m2 ++ [o] else s.voters m2
        attestYes := fun m2 => if m2 = m ∧ r = 1 then s.attestYes m2 + 1 else s.attestYes m2
        attestNo := fun m2 => if m2 = m ∧ r ≠ 1 then s.attestNo m2 + 1 else s.attestNo m2 } := by
  unfold submit_attestation at h
  split at h
  · exact Except.noConfusion h
  · rename_i hreg
    split at h
    · exact Except.noConfusion h
    · rename_i rt hrt
      split at h
      · exact Except.noConfusion h
      · rename_i h1
        split at h
        · exact Except.noConfusion h
        · rename_i h2
          split at h
          · exact Except.noConfusion h
          · rename_i h3
            injection h with h
            subst h
            exact ⟨by simpa using hreg, by omega, by simpa using h3, rt, hrt, by omega, rfl⟩

/-- Successful `add_admin_signer` characterized. -/
theorem add_admin_signer_ok_elim {c a : Nat} {s s2 : OracleState}
    (h : add_admin_signer c a s = .ok s2) :
    ∃ sg, s.adminSigners = some sg ∧ sg.contains c = true ∧ sg.contains a = false ∧
      s2 = { s with adminSigners := some (sg ++ [a]) } := by
  unfold add_admin_signer at h
  split at h
  · exact Except.noConfusion h
  · rename_i sg hsg
    split at h
    · exact Except.noConfusion h
    · rename_i h1
      split at h
      · exact Except.noConfusion h
      · rename_i h2
        injection h with h
        subst h
        exact ⟨sg, hsg, by simpa using h1, by simpa using h2, rfl⟩

/-- Successful `set_required_signatures` characterized. -/
theorem set_required_signatures_ok_elim {c n : Nat} {s s2 : OracleState}
    (h : set_required_signatures c n s = .ok s2) :
    s2 = { s with requiredSigs := some n } := by
  unfold set_required_signatures at h
  split at h
  · exact Except.noConfusion h
  · split at h
    · exact Except.noConfusion h
    · split at h
      · exact Except.noConfusion h
      · injection h with h
        subst h
        rfl

/-- Successful `set_override_cooldown` characterized. -/
theorem set_override_cooldown_ok_elim {c n : Nat} {s s2 : OracleState}
    (h : set_override_cooldown c n s = .ok s2) :
    3600 ≤ n ∧ s2 = { s with overrideCooldown := some n } := by
  unfold set_override_cooldown at h
  split at h
  · exact Except.noConfusion h
  · split at h
    · exact Except.noConfusion h
    · split at h
      · exact Except.noConfusion h
      · rename_i h2
        injection h with h
        subst h
        exact ⟨by omega, rfl⟩

/-- Successful `emergency_override` characterized: every guard passed and the
post-state carries the forced consensus value, the manual-override flag, the
full audit record and the advanced global cooldown clock. -/
theorem override_ok_elim {ap : List Addr} {mid oc j now : Nat} {s s2 : OracleState}
    (h : emergency_override ap mid oc j now s = .ok s2) :
    oc ≤ 1 ∧
    (∃ sg, s.adminSigners = some sg ∧ s.requiredSigs.getD 2 ≤ ap.length ∧
      checkApprovers sg ap = .ok ap.length) ∧
    ¬(0 < s.lastOverrideTime ∧
      now - s.lastOverrideTime < s.overrideCooldown.getD 86400) ∧
    (s.mktResTime mid).isSome = true ∧
    s2 = { s with
      consensusResult := fun m => if m = mid then some oc else s.consensusResult m
      manualOverride := fun m => if m = mid then true else s.manualOverride m
      overrideRecord := fun m =>
        if m = mid then some ⟨mid, oc, j, ap, now⟩ else s.overrideRecord m
      lastOverrideTime := now } := by
  unfold emergency_override at h
  split at h
  · exact Except.noConfusion h
  · rename_i h0
    split at h
    · exact Except.noConfusion h
    · rename_i sg hsg
      split at h
      · exact Except.noConfusion h
      · rename_i h1
        split at h
        · exact Except.noConfusion h
        · rename_i cnt hcnt
          split at h
          · exact Except.noConfusion h
          · rename_i h2
            split at h
            · exact Except.noConfusion h
            · rename_i h3
              split at h
              · exact Except.noConfusion h
              · rename_i h4
                injection h with h
                subst h
                have hlen := checkApprovers_ok_length hcnt
                refine ⟨by omega, ⟨sg, hsg, by omega, by rw [hcnt, hlen]⟩, h3,
                  by simp [Option.isSome_iff_ne_none]; simpa using h4, rfl⟩

/-- The oracle-count bound survives every entry point. -/
theorem applyOp_oracleCount_le (op : Op) (s : OracleState)
    (h : s.oracleCount ≤ 10) : (applyOp op s).oracleCount ≤ 10 := by
  cases hstep : step op s with
  | error e => rw [applyOp_error hstep]; exact h
  | ok s2 =>
    rw [applyOp_ok hstep]
    cases op with
    | opInit a rc =>
      simp only [step] at hstep
      injection hstep with he
      subst he
      exact Nat.zero_le 10
    | opRegisterOracle o n now =>
      simp only [step] at hstep
      obtain ⟨hlt, -, h2⟩ := register_oracle_ok_elim hstep
      subst h2
      show s.oracleCount + 1 ≤ 10
      omega
    | opRegisterMarket m rt =>
      simp only [step] at hstep
      have h2 := register_market_ok_elim hstep
      subst h2; exact h
    | opSubmit o m r now =>
      simp only [step] at hstep
      obtain ⟨-, -, -, rt, -, -, h2⟩ := submit_ok_elim hstep
      subst h2; exact h
    | opAddAdminSigner c a =>
      simp only [step] at hstep
      obtain ⟨sg, -, -, -, h2⟩ := add_admin_signer_ok_elim hstep
      subst h2; exact h
    | opSetRequiredSignatures c n =>
      simp only [step] at hstep
      have h2 := set_required_signatures_ok_elim hstep
      subst h2; exact h
    | opSetOverrideCooldown c n =>
      simp only [step] at hstep
      obtain ⟨-, h2⟩ := set_override_cooldown_ok_elim hstep
      subst h2; exact h
    | opEmergencyOverride ap mid oc j now =>
      simp only [step] at hstep
      obtain ⟨-, -, -, -, h2⟩ := override_ok_elim hstep
      subst h2; exact h
    | opUnimplementedStub =>
      simp only [step] at hstep
      exact Except.noConfusion hstep

/-- C7: on an initialized instance a registration attempt with count already at
10 fails with the registry-full panic and leaves the count unchanged; a
registration of an already-present identity (with capacity left) fails with
the already-registered panic and leaves the whole registry state unchanged;
and along every run from genesis the oracle count never exceeds 10. -/
theorem C7_registry_capacity :
    (∀ s a o n now, s.admin = some a → 10 ≤ s.oracleCount →
      register_oracle o n now s = .error .registryFull ∧
      (applyOp (.opRegisterOracle o n now) s).oracleCount = s.oracleCount) ∧
    (∀ s a o n now, s.admin = some a → s.oracleCount < 10 → s.oracleReg o = true →
      register_oracle o n now s = .error .alreadyRegistered ∧
      applyOp (.opRegisterOracle o n now) s = s) ∧
    (∀ ops, (run ops initialState).oracleCount ≤ 10) := by
  refine ⟨?_, ?_, ?_⟩
  · intro s a o n now hA h10
    have he : register_oracle o n now s = .error .registryFull := by
      simp [register_oracle, hA, h10]
    exact ⟨he, by
      rw [applyOp_error (show step (.opRegisterOracle o n now) s = .error .registryFull from he)]⟩
  · intro s a o n now hA h10 hreg
    have hn : ¬ 10 ≤ s.oracleCount := by omega
    have he : register_oracle o n now s = .error .alreadyRegistered := by
      simp [register_oracle, hA, hn, hreg]
    exact ⟨he,
      applyOp_error (show step (.opRegisterOracle o n now) s = .error .alreadyRegistered from he)⟩
  · intro ops
    exact run_invariant (fun s => s.oracleCount ≤ 10) applyOp_oracleCount_le ops
      initialState (Nat.zero_le 10)

/-- A full registry: ten oracles registered after initialization. -/
def C7full : OracleState :=
  run [.opInit 1 1,
       .opRegisterOracle 11 0 0, .opRegisterOracle 12 0 0, .opRegisterOracle 13 0 0,
       .opRegisterOracle 14 0 0, .opRegisterOracle 15 0 0, .opRegisterOracle 16 0 0,
       .opRegisterOracle 17 0 0, .opRegisterOracle 18 0 0, .opRegisterOracle 19 0 0,
       .opRegisterOracle 20 0 0] initialState

/-- A small registry with oracle 2 already present. -/
def C7small : OracleState :=
  run [.opInit 1 1, .opRegisterOracle 2 0 0] initialState

/-- Witness for C7: the 11th registration fails full and keeps the count; a
duplicate registration fails and keeps the state. -/
theorem C7_witness :
    (register_oracle 21 0 5 C7full = .error .registryFull ∧
      (applyOp (.opRegisterOracle 21 0 5) C7full).oracleCount = C7full.oracleCount) ∧
    (register_oracle 2 0 5 C7small = .error .alreadyRegistered ∧
      applyOp (.opRegisterOracle 2 0 5) C7small = C7small) :=
  ⟨C7_registry_capacity.1 C7full 1 21 0 5 (by decide) (by decide),
   C7_registry_capacity.2.1 C7small 1 2 0 5 (by decide) (by decide) (by decide)⟩

/-- C5: `submit_attestation` fails with the not-registered panic iff the oracle
is unknown; with the market-not-registered panic iff (the oracle is known and)
no resolution time is on file; with the too-early panic iff the current time
is before the resolution time; with the invalid-outcome panic iff the outcome
exceeds 1; with the duplicate-vote panic iff a vote already exists for the
pair — checks in exactly that order — and every failing call leaves the whole
state unchanged. -/
theorem C5_submit_error_order (s : OracleState) (o m r now : Nat) :
    (submit_attestation o m r now s = .error .notRegistered ↔ s.oracleReg o = false) ∧
    (submit_attestation o m r now s = .error .marketNotRegistered ↔
      s.oracleReg o = true ∧ s.mktResTime m = none) ∧
    (submit_attestation o m r now s = .error .tooEarly ↔
      s.oracleReg o = true ∧ ∃ rt, s.mktResTime m = some rt ∧ now < rt) ∧
    (submit_attestation o m r now s = .error .invalidOutcome ↔
      s.oracleReg o = true ∧ (∃ rt, s.mktResTime m = some rt ∧ rt ≤ now) ∧ 1 < r) ∧
    (submit_attestation o m r now s = .error .duplicateVote ↔
      s.oracleReg o = true ∧ (∃ rt, s.mktResTime m = some rt ∧ rt ≤ now) ∧ r ≤ 1 ∧
      (s.vote m o).isSome = true) ∧
    (∀ e, submit_attestation o m r now s = .error e →
      applyOp (.opSubmit o m r now) s = s) := by
  have last : ∀ e, submit_attestation o m r now s = .error e →
      applyOp (.opSubmit o m r now) s = s := fun e he =>
    applyOp_error (show step (.opSubmit o m r now) s = .error e from he)
  refine ⟨?_, ?_, ?_, ?_, ?_, last⟩ <;>
  · cases hreg : s.oracleReg o with
    | false => simp [submit_attestation, hreg]
    | true =>
      cases hm : s.mktResTime m with
      | none => simp [submit_attestation, hreg, hm]
      | some rt =>
        by_cases h1 : now < rt
        · simp [submit_attestation, hreg, hm, h1]
        · by_cases h2 : 1 < r
          · simp [submit_attestation, hreg, hm, h1, h2] <;> omega
          · by_cases h3 : (s.vote m o).isSome = true
            · simp [submit_attestation, hreg, hm, h1, h2, h3] <;> omega
            · simp [submit_attestation, hreg, hm, h1, h2, h3] <;> omega

/-- Witness for C5 at concrete inputs: on the pristine instance a submission
fails with the not-registered panic and changes nothing. -/
theorem C5_witness :
    submit_attestation 2 5 1 10 initialState = .error .notRegistered ∧
    applyOp (.opSubmit 2 5 1 10) initialState = initialState :=
  have h := C5_submit_error_order initialState 2 5 1 10
  have he : submit_attestation 2 5 1 10 initialState = .error .notRegistered :=
    h.1.mpr (by decide)
  ⟨he, h.2.2.2.2.2 .notRegistered he⟩

/-- Voter-list soundness: every listed voter of every market has a stored
vote, and no voter is listed twice. -/
def VotersInv (s : OracleState) : Prop :=
  ∀ m, (∀ o ∈ s.voters m, (s.vote m o).isSome = true) ∧ (s.voters m).Nodup

/-- The pristine instance satisfies the voter-list invariant. -/
theorem votersInv_init : VotersInv initialState := by
  intro m
  constructor
  · intro o ho
    simp [initialState] at ho
  · simp [initialState]

/-- Every entry point preserves the voter-list invariant. -/
theorem votersInv_applyOp (op : Op) (s : OracleState) (h : VotersInv s) :
    VotersInv (applyOp op s) := by
  cases hstep : step op s with
  | error e => rw [applyOp_error hstep]; exact h
  | ok s2 =>
    rw [applyOp_ok hstep]
    cases op with
    | opInit a rc =>
      simp only [step] at hstep
      injection hstep with he
      subst he
      exact h
    | opRegisterOracle o n now =>
      simp only [step] at hstep
      obtain ⟨-, -, h2⟩ := register_oracle_ok_elim hstep
      subst h2; exact h
    | opRegisterMarket m rt =>
      simp only [step] at hstep
      have h2 := register_market_ok_elim hstep
      subst h2; exact h
    | opSubmit o m r now =>
      simp only [step] at hstep
      obtain ⟨-, -, hnone, rt, -, -, h2⟩ := submit_ok_elim hstep
      have hno : o ∉ s.voters m := by
        intro hc
        have := (h m).1 o hc
        rw [hnone] at this
        simp at this
      have hvoters : s2.voters =
          fun m2 => if m2 = m then s.voters m2 ++ [o] else s.voters m2 := by
        rw [h2]
      have hvote : s2.vote =
          fun m2 a => if m2 = m ∧ a = o then some r else s.vote m2 a := by
        rw [h2]
      intro m2
      simp only [hvoters, hvote]
      rcases eq_or_ne m2 m with hm2 | hm2
      · subst hm2
        constructor
        · intro o2 ho2
          rw [if_pos rfl] at ho2
          rcases List.mem_append.1 ho2 with ho2 | ho2
          · rcases eq_or_ne o2 o with ho | ho
            · subst ho
              simp
            · rw [if_neg (fun hc => ho hc.2)]
              exact (h m2).1 o2 ho2
          · have ho : o2 = o := by simpa using ho2
            subst ho
            simp
        · rw [if_pos rfl]
          simp [List.nodup_append, (h m2).2, hno]
      · constructor
        · intro o2 ho2
          rw [if_neg hm2] at ho2
          rw [if_neg (fun hc => hm2 hc.1)]
          exact (h m2).1 o2 ho2
        · rw [if_neg hm2]
          exact (h m2).2
    | opAddAdminSigner c a =>
      simp only [step] at hstep
      obtain ⟨sg, -, -, -, h2⟩ := add_admin_signer_ok_elim hstep
      subst h2; exact h
    | opSetRequiredSignatures c n =>
      simp only [step] at hstep
      have h2 := set_required_signatures_ok_elim hstep
      subst h2; exact h
    | opSetOverrideCooldown c n =>
      simp only [step] at hstep
      obtain ⟨-, h2⟩ := set_override_cooldown_ok_elim hstep
      subst h2; exact h
    | opEmergencyOverride ap mid oc j now =>
      simp only [step] at hstep
      obtain ⟨-, -, -, -, h2⟩ := override_ok_elim hstep
      subst h2; exact h
    | opUnimplementedStub =>
      simp only [step] at hstep
      exact Except.noConfusion hstep

/-- C6: after a successful attestation for a (market, oracle) pair, any second
submission for the same pair — at a no-earlier ledger time and with any binary
outcome value — fails with the duplicate-vote panic and leaves the state
(tallies and voter list included) unchanged; and along every run from genesis
no market's voter list ever contains the same oracle twice. -/
theorem C6_at_most_one_vote :
    (∀ s o m r now s2 r2 now2, submit_attestation o m r now s = .ok s2 →
      r2 ≤ 1 → now ≤ now2 →
      submit_attestation o m r2 now2 s2 = .error .duplicateVote ∧
      applyOp (.opSubmit o m r2 now2) s2 = s2) ∧
    (∀ ops m, ((run ops initialState).voters m).Nodup) := by
  constructor
  · intro s o m r now s2 r2 now2 hok hr2 hmono
    obtain ⟨hreg, hr, hnone, rt, hrt, hle, h2⟩ := submit_ok_elim hok
    have hreg2 : s2.oracleReg o = true := by rw [h2]; exact hreg
    have hrt2 : s2.mktResTime m = some rt := by rw [h2]; exact hrt
    have hvote2 : (s2.vote m o).isSome = true := by rw [h2]; simp
    have hc1 : ¬ now2 < rt := by omega
    have hc2 : ¬ 1 < r2 := by omega
    have he : submit_attestation o m r2 now2 s2 = .error .duplicateVote := by
      simp [submit_attestation, hreg2, hrt2, hc1, hc2, hvote2]
    exact ⟨he, applyOp_error (show step (.opSubmit o m r2 now2) s2 = .error _ from he)⟩
  · intro ops m
    exact (run_invariant VotersInv votersInv_applyOp ops initialState votersInv_init m).2

/-- A state with oracle 2 registered and market 5 open for attestation. -/
def C6state : OracleState :=
  run [.opInit 1 2, .opRegisterOracle 2 0 0, .opRegisterMarket 5 10] initialState

/-- The C6 state after oracle 2 successfully attests YES on market 5. -/
def C6state2 : OracleState := applyOp (.opSubmit 2 5 1 10) C6state

/-- Witness for C6 at concrete inputs: the second attestation of oracle 2 on
market 5 fails with the duplicate-vote panic and changes nothing. -/
theorem C6_witness :
    submit_attestation 2 5 0 11 C6state2 = .error .duplicateVote ∧
    applyOp (.opSubmit 2 5 0 11) C6state2 = C6state2 :=
  C6_at_most_one_vote.1 C6state 2 5 1 10 C6state2 0 11 rfl (by decide) (by decide)

/-- The manual-override flag only ever turns on: every entry point preserves a
set flag. -/
theorem manualOverride_monotone (op : Op) (s : OracleState) (mid : MarketId)
    (h : s.manualOverride mid = true) : (applyOp op s).manualOverride mid = true := by
  cases hstep : step op s with
  | error e => rw [applyOp_error hstep]; exact h
  | ok s2 =>
    rw [applyOp_ok hstep]
    cases op with
    | opInit a rc =>
      simp only [step] at hstep
      injection hstep with he
      subst he; exact h
    | opRegisterOracle o n now =>
      simp only [step] at hstep
      obtain ⟨-, -, h2⟩ := register_oracle_ok_elim hstep
      subst h2; exact h
    | opRegisterMarket m rt =>
      simp only [step] at hstep
      have h2 := register_market_ok_elim hstep
      subst h2; exact h
    | opSubmit o m r now =>
      simp only [step] at hstep
      obtain ⟨-, -, -, rt, -, -, h2⟩ := submit_ok_elim hstep
      subst h2; exact h
    | opAddAdminSigner c a =>
      simp only [step] at hstep
      obtain ⟨sg, -, -, -, h2⟩ := add_admin_signer_ok_elim hstep
      subst h2; exact h
    | opSetRequiredSignatures c n =>
      simp only [step] at hstep
      have h2 := set_required_signatures_ok_elim hstep
      subst h2; exact h
    | opSetOverrideCooldown c n =>
      simp only [step] at hstep
      obtain ⟨-, h2⟩ := set_override_cooldown_ok_elim hstep
      subst h2; exact h
    | opEmergencyOverride ap m2 oc j now =>
      simp only [step] at hstep
      obtain ⟨-, -, -, -, h2⟩ := override_ok_elim hstep
      subst h2
      show (if mid = m2 then true else s.manualOverride mid) = true
      split_ifs with hw
      · rfl
      · exact h
    | opUnimplementedStub =>
      simp only [step] at hstep
      exact Except.noConfusion hstep

/-- C4: every successful `emergency_override` overwrites the market's
consensus-result slot with the forced outcome (whatever was there before),
sets the manual-override flag, and stores the complete override record; and
the flag is permanent — no entry point ever clears it once set. -/
theorem C4_override_writes_and_permanence :
    (∀ s ap mid oc j now s2, emergency_override ap mid oc j now s = .ok s2 →
      s2.consensusResult mid = some oc ∧
      get_consensus_result mid s2 = .ok oc ∧
      is_manual_override mid s2 = true ∧
      get_override_record mid s2 = some ⟨mid, oc, j, ap, now⟩) ∧
    (∀ op s mid, is_manual_override mid s = true →
      is_manual_override mid (applyOp op s) = true) := by
  constructor
  · intro s ap mid oc j now s2 hok
    obtain ⟨-, -, -, -, h2⟩ := override_ok_elim hok
    subst h2
    refine ⟨?_, ?_, ?_, ?_⟩ <;>
      simp [get_consensus_result, is_manual_override, get_override_record]
  · intro op s mid h
    exact manualOverride_monotone op s mid h

/-- A state with two admin signers and market 7 registered, no override yet. -/
def C4state : OracleState :=
  run [.opInit 1 2, .opAddAdminSigner 1 2, .opRegisterMarket 7 50] initialState

/-- The C4 state after a successful override forcing outcome 1 on market 7. -/
def C4state2 : OracleState := applyOp (.opEmergencyOverride [1, 2] 7 1 99 100) C4state

/-- Witness for C4 at concrete inputs: the forced outcome, flag and record are
stored, and the flag survives a later market re-registration. -/
theorem C4_witness :
    (C4state2.consensusResult 7 = some 1 ∧
      get_consensus_result 7 C4state2 = .ok 1 ∧
      is_manual_override 7 C4state2 = true ∧
      get_override_record 7 C4state2 = some ⟨7, 1, 99, [1, 2], 100⟩) ∧
    is_manual_override 7 (applyOp (.opRegisterMarket 7 60) C4state2) = true :=
  ⟨C4_override_writes_and_permanence.1 C4state [1, 2] 7 1 99 100 C4state2 rfl,
   C4_override_writes_and_permanence.2 (.opRegisterMarket 7 60) C4state2 7 (by decide)⟩

/-- Whether an entry point is an emergency override targeting the given market. -/
def overridesMarket : Op → MarketId → Prop
  | .opEmergencyOverride _ m _ _ _, mid => m = mid
  | _, _ => False

/-- C9: the consensus-result slot starts empty, no entry point other than an
emergency override of that very market ever writes it, and reading an empty
slot is the "Consensus result not found" panic — reaching organic consensus
does not populate it. -/
theorem C9_consensus_result_only_from_override :
    (∀ mid, initialState.consensusResult mid = none) ∧
    (∀ op s mid, ¬ overridesMarket op mid →
      (applyOp op s).consensusResult mid = s.consensusResult mid) ∧
    (∀ s mid, s.consensusResult mid = none →
      get_consensus_result mid s = .error .consensusResultNotFound) := by
  refine ⟨fun mid => rfl, ?_, ?_⟩
  · intro op s mid hnot
    cases hstep : step op s with
    | error e => rw [applyOp_error hstep]
    | ok s2 =>
      rw [applyOp_ok hstep]
      cases op with
      | opInit a rc =>
        simp only [step] at hstep
        injection hstep with he
        subst he; rfl
      | opRegisterOracle o n now =>
        simp only [step] at hstep
        obtain ⟨-, -, h2⟩ := register_oracle_ok_elim hstep
        subst h2; rfl
      | opRegisterMarket m rt =>
        simp only [step] at hstep
        have h2 := register_market_ok_elim hstep
        subst h2; rfl
      | opSubmit o m r now =>
        simp only [step] at hstep
        obtain ⟨-, -, -, rt, -, -, h2⟩ := submit_ok_elim hstep
        subst h2; rfl
      | opAddAdminSigner c a =>
        simp only [step] at hstep
        obtain ⟨sg, -, -, -, h2⟩ := add_admin_signer_ok_elim hstep
        subst h2; rfl
      | opSetRequiredSignatures c n =>
        simp only [step] at hstep
        have h2 := set_required_signatures_ok_elim hstep
        subst h2; rfl
      | opSetOverrideCooldown c n =>
        simp only [step] at hstep
        obtain ⟨-, h2⟩ := set_override_cooldown_ok_elim hstep
        subst h2; rfl
      | opEmergencyOverride ap m2 oc j now =>
        simp only [step] at hstep
        obtain ⟨-, -, -, -, h2⟩ := override_ok_elim hstep
        subst h2
        show (if mid = m2 then some oc else s.consensusResult mid) = s.consensusResult mid
        exact if_neg (fun hc => hnot (show m2 = mid from hc.symm))
      | opUnimplementedStub =>
        simp only [step] at hstep
        exact Except.noConfusion hstep
  · intro s mid h
    simp [get_consensus_result, h]

/-- A state where market 5 has a reached organic consensus (threshold 1, one
YES vote) but was never overridden. -/
def C9state : OracleState :=
  run [.opInit 1 1, .opRegisterOracle 2 0 0, .opRegisterMarket 5 10,
       .opSubmit 2 5 1 10] initialState

/-- Witness for C9 at concrete inputs: consensus is reached organically, yet
reading the consensus result panics, and a non-override operation leaves the
slot untouched. -/
theorem C9_witness :
    check_consensus 5 C9state = (true, 1) ∧
    get_consensus_result 5 C9state = .error .consensusResultNotFound ∧
    (applyOp (.opRegisterMarket 6 20) C9state).consensusResult 5 =
      C9state.consensusResult 5 :=
  ⟨by decide,
   C9_consensus_result_only_from_override.2.2 C9state 5 (by decide),
   C9_consensus_result_only_from_override.2.1 (.opRegisterMarket 6 20) C9state 5
     (fun hc => hc)⟩

/-- The approver loop can only fail with the invalid-approver panic. -/
theorem checkApprovers_error_shape {sg l : List Addr} {e : OErr}
    (h : checkApprovers sg l = .error e) : e = .invalidApprover := by
  induction l with
  | nil => simp [checkApprovers] at h
  | cons a rest ih =>
    simp only [checkApprovers] at h
    split_ifs at h with hc
    · cases hrec : checkApprovers sg rest with
      | ok n =>
        rw [hrec] at h
        exact Except.noConfusion h
      | error e2 =>
        rw [hrec] at h
        injection h with h
        subst h
        exact ih hrec
    · injection h with h
      exact h.symm

/-- An initialized instance with a single admin signer (the default) and
market 5 registered. -/
def C1state : OracleState :=
  run [.opInit 1 2, .opRegisterMarket 5 50] initialState

/-- The C1 state after `emergency_override` with the duplicated approver list
`[1, 1]` — which the code accepts. -/
def C1state2 : OracleState := applyOp (.opEmergencyOverride [1, 1] 5 1 9 100) C1state

/-- C1 (code bug): the duplicate-approver guard of `emergency_override` is
unreachable — the loop counts every approver that passes the admin check, so
the count always equals the list length and the call can never fail with the
duplicate-approver panic; concretely, with admin set `[1]` and required
signatures 2, the duplicated approver list `[1, 1]` is accepted and the
override goes through, writing the consensus result and the override flag. -/
theorem C1_duplicate_approver_not_enforced :
    (∀ s ap mid oc j now,
      emergency_override ap mid oc j now s ≠ .error .duplicateApprover) ∧
    ([1, 1].count 1 = 2 ∧
      C1state.adminSigners = some [1] ∧
      get_required_signatures C1state = 2 ∧
      emergency_override [1, 1] 5 1 9 100 C1state = .ok C1state2 ∧
      C1state2.consensusResult 5 = some 1 ∧
      is_manual_override 5 C1state2 = true) := by
  constructor
  · intro s ap mid oc j now h
    unfold emergency_override at h
    split at h
    · simp at h
    · split at h
      · simp at h
      · split at h
        · simp at h
        · split at h
          · rename_i e2 hce
            injection h with h
            have := checkApprovers_error_shape hce
            rw [h] at this
            exact OErr.noConfusion this
          · rename_i cnt hcnt
            split at h
            · rename_i hne
              exact hne (checkApprovers_ok_length hcnt)
            · split at h
              · simp at h
              · split at h
                · simp at h
                · simp at h
  · exact ⟨by decide, by decide, by decide, rfl, by decide, by decide⟩

/-- Witness for C1: the duplicate-approver panic is impossible at the concrete
duplicated call as well. -/
theorem C1_witness :
    emergency_override [1, 1] 5 1 9 100 C1state ≠ .error .duplicateApprover :=
  C1_duplicate_approver_not_enforced.1 C1state [1, 1] 5 1 9 100

/-- Two admin signers, required signatures 2, markets 5 and 6 registered,
nothing overridden yet. -/
def C3s0 : OracleState :=
  run [.opInit 1 2, .opAddAdminSigner 1 2, .opRegisterMarket 5 100,
       .opRegisterMarket 6 100] initialState

/-- The C3 state after an override of market 5 at ledger time 0. -/
def C3s1 : OracleState := applyOp (.opEmergencyOverride [1, 2] 5 0 7 0) C3s0

/-- The C3 state after a second override, of market 6, at ledger time 1. -/
def C3s2 : OracleState := applyOp (.opEmergencyOverride [1, 2] 6 1 7 1) C3s1

/-- Counterexample to C3 as stated: an override at ledger time 0 stores
`last_override_time = 0`, which the cooldown gate reads as "never overridden",
so a second override only one second later also succeeds even though the
cooldown is 86400 seconds — two successful overrides separated by less than
the cooldown. -/
theorem C3_counterexample :
    emergency_override [1, 2] 5 0 7 0 C3s0 = .ok C3s1 ∧
    emergency_override [1, 2] 6 1 7 1 C3s1 = .ok C3s2 ∧
    get_override_cooldown C3s1 = 86400 ∧
    get_last_override_time C3s1 = 0 ∧
    (1 : Nat) - (0 : Nat) < 86400 :=
  ⟨rfl, rfl, by decide, by decide, by decide⟩

/-- C3 (amended): when the call survives the approver checks, it fails with
the cooldown panic exactly when `last_override_time > 0` and
`now - last_override_time < cooldown_period`, irrespective of the targeted
market; every successful override stores `now` as the new global
`last_override_time`; and two consecutive successful overrides — of any two
markets — whose first happens at a nonzero ledger time are separated by at
least the cooldown. -/
theorem C3_amended_global_cooldown :
    (∀ s ap mid oc j now,
      s.lastOverrideTime ≤ now → oc ≤ 1 →
      (∃ sg n, s.adminSigners = some sg ∧ checkApprovers sg ap = .ok n) →
      s.requiredSigs.getD 2 ≤ ap.length →
      (emergency_override ap mid oc j now s = .error .cooldownActive ↔
        0 < s.lastOverrideTime ∧
        now - s.lastOverrideTime < s.overrideCooldown.getD 86400)) ∧
    (∀ s ap mid oc j now s2, emergency_override ap mid oc j now s = .ok s2 →
      get_last_override_time s2 = now) ∧
    (∀ s ap1 m1 o1 j1 t1 s1 ap2 m2 o2 j2 t2 s2,
      0 < t1 →
      emergency_override ap1 m1 o1 j1 t1 s = .ok s1 →
      emergency_override ap2 m2 o2 j2 t2 s1 = .ok s2 →
      get_override_cooldown s1 ≤ t2 - t1) := by
  refine ⟨?_, ?_, ?_⟩
  · intro s ap mid oc j now hmon hoc hap hlen
    obtain ⟨sg, n, hsg, hca⟩ := hap
    have h0 : ¬ 1 < oc := by omega
    have h1 : ¬ ap.length < s.requiredSigs.getD 2 := by omega
    have h2 : ¬ n ≠ ap.length := by
      simpa using checkApprovers_ok_length hca
    simp only [emergency_override, hsg, hca, h0, h1, h2, if_false]
    split_ifs with hcool hnone <;> simp [hcool]
  · intro s ap mid oc j now s2 hok
    obtain ⟨-, -, -, -, h2⟩ := override_ok_elim hok
    subst h2; rfl
  · intro s ap1 m1 o1 j1 t1 s1 ap2 m2 o2 j2 t2 s2 ht1 h1 h2
    obtain ⟨-, -, hc2, -, -⟩ := override_ok_elim h2
    obtain ⟨-, -, -, -, hs1⟩ := override_ok_elim h1
    subst hs1
    show s.overrideCooldown.getD 86400 ≤ t2 - t1
    have hc2b : ¬(0 < t1 ∧ t2 - t1 < s.overrideCooldown.getD 86400) := hc2
    omega

/-- Same setup as the C3 counterexample but with the first override at a
nonzero time. -/
def C3w0 : OracleState :=
  run [.opInit 1 2, .opAddAdminSigner 1 2, .opRegisterMarket 5 100,
       .opRegisterMarket 6 100] initialState

/-- The C3 witness state after an override of market 5 at ledger time 50. -/
def C3w1 : OracleState := applyOp (.opEmergencyOverride [1, 2] 5 0 7 50) C3w0

/-- The C3 witness state after a second override at ledger time 86450. -/
def C3w2 : OracleState := applyOp (.opEmergencyOverride [1, 2] 6 1 7 86450) C3w1

/-- Witness for the amended C3 at concrete inputs: the second successful
override comes no sooner than one cooldown after the first, the clock is
advanced, and at time 60 the cooldown gate rejects the call. -/
theorem C3_witness :
    get_override_cooldown C3w1 ≤ 86450 - 50 ∧
    get_last_override_time C3w1 = 50 ∧
    (emergency_override [1, 2] 6 1 7 60 C3w1 = .error .cooldownActive ↔
      0 < C3w1.lastOverrideTime ∧
      60 - C3w1.lastOverrideTime < C3w1.overrideCooldown.getD 86400) :=
  ⟨C3_amended_global_cooldown.2.2 C3w0 [1, 2] 5 0 7 50 C3w1 [1, 2] 6 1 7 86450 C3w2
     (by decide) rfl rfl,
   C3_amended_global_cooldown.2.1 C3w0 [1, 2] 5 0 7 50 C3w1 rfl,
   C3_amended_global_cooldown.1 C3w1 [1, 2] 6 1 7 60 (by decide) (by decide)
     ⟨[1, 2], 2, by decide, rfl⟩ (by decide)⟩

/-- C10: re-invoking `register_market` on a market overwrites the resolution
time and resets both tally counters to zero while leaving the voter lists,
stored votes and attestation records untouched, so afterwards
`get_attestation_counts` reads `(0, 0)` while `check_consensus` — which
re-derives its counts from the surviving votes — is unchanged, and the two
can disagree. -/
theorem C10_reregister_frame :
    ∀ s a mid rt, s.admin = some a →
      ∃ s2, register_market mid rt s = .ok s2 ∧
        get_market_resolution_time mid s2 = some rt ∧
        get_attestation_counts mid s2 = (0, 0) ∧
        s2.voters = s.voters ∧ s2.vote = s.vote ∧ s2.attn = s.attn ∧
        check_consensus mid s2 = check_consensus mid s := by
  intro s a mid rt hA
  refine ⟨{ s with
      mktResTime := fun m2 => if m2 = mid then some rt else s.mktResTime m2
      attestYes := fun m2 => if m2 = mid then 0 else s.attestYes m2
      attestNo := fun m2 => if m2 = mid then 0 else s.attestNo m2 },
    ?_, ?_, ?_, rfl, rfl, rfl, rfl⟩
  · simp [register_market, hA]
  · simp [get_market_resolution_time]
  · simp [get_attestation_counts]

/-- Threshold 2 with two YES attestations on market 5. -/
def C10state : OracleState :=
  run [.opInit 1 2, .opRegisterOracle 2 0 0, .opRegisterOracle 3 0 0,
       .opRegisterMarket 5 10, .opSubmit 2 5 1 10, .opSubmit 3 5 1 10] initialState

/-- The C10 state after market 5 is re-registered with a new resolution time. -/
def C10state2 : OracleState := applyOp (.opRegisterMarket 5 20) C10state

/-- Witness for C10 at concrete inputs: after re-registration the tally
counters read `(0, 0)` while `check_consensus` still reports the YES consensus
derived from the surviving votes. -/
theorem C10_witness :
    register_market 5 20 C10state = .ok C10state2 ∧
    get_attestation_counts 5 C10state2 = (0, 0) ∧
    check_consensus 5 C10state2 = (true, 1) := by
  obtain ⟨s2, h1, -, h3, -, -, -, h7⟩ := C10_reregister_frame C10state 1 5 20 (by decide)
  have he : s2 = C10state2 := by
    have hb : register_market 5 20 C10state = .ok C10state2 := rfl
    rw [h1] at hb
    exact Except.ok.inj hb
  subst he
  refine ⟨h1, h3, ?_⟩
  rw [h7]
  decide
